import Mathlib

/-!
Shallow embedding of `src/utility/CameraUtility.py` from the BlenderProc
repository, together with proofs about its camera-intrinsics conversions,
its depth-of-field and camera-pose helpers, and the iterative inversion of
the radial/tangential lens-distortion model in `set_lens_distortion`.

Modelling conventions:
* All numeric state that Python holds in floats is modelled over an
  arbitrary `LinearOrderedField α` (instantiated at `ℚ` for concrete
  evaluations and covering `ℝ` for the exact-real-arithmetic statements).
  Machine floating point itself is not modelled; all claims treated here
  are about the exact-arithmetic behaviour of the formulas.
* The Blender scene context (`bpy.context.scene`) is the explicit `Scene`
  record threaded through every function; a Python function that mutates
  the scene becomes a function `Scene α → Scene α`, and a function that can
  `raise` returns `Except String (Scene α)`.
* Image resolutions are Python ints, modelled as `ℤ`.
* In `set_lens_distortion` the residual list `res` stores values
  `np.hypot(a, b) = sqrt (a^2 + b^2)`, which are irrational; the model
  stores the squares of all residuals instead.  Every use of a residual in
  the source is a comparison against a nonnegative quantity
  (`res[-1] > 0.2`, `res[-1] > res[-2] * .999`, `error > 1e9`), so
  comparing squares against squared thresholds (`1/25`, factor
  `998001/1000000`, `10^18`) is an exact transcription: for `a, b ≥ 0`,
  `a > b ↔ a^2 > b^2`.  The sentinel `res = [1e3]` becomes `[10^6]`.
-/

/-- The per-camera data of `bpy.context.scene.camera.data` that
`CameraUtility` reads or writes. -/
structure BlenderCamera (α : Type) where
  lens : α
  lens_unit : String
  angle : α
  sensor_fit : String
  sensor_width : α
  sensor_height : α
  shift_x : α
  shift_y : α
  clip_start : α
  clip_end : α
  deriving DecidableEq

/-- The render settings of `bpy.context.scene.render` that
`CameraUtility` reads or writes. -/
structure RenderSettings (α : Type) where
  resolution_x : ℤ
  resolution_y : ℤ
  pixel_aspect_x : α
  pixel_aspect_y : α
  deriving DecidableEq

/-- The dict stored by `set_lens_distortion` under the key
`"_lens_distortion_is_used"`: the stacked backward mapping coordinates
`[v; u]` and the image resolution `(resolution_y, resolution_x)` saved at
the start of the call. -/
structure LensDistortionRecord (α : Type) where
  mapping_coords : List α × List α
  original_image_res : ℤ × ℤ
  deriving DecidableEq

/-- The scene state (`bpy.context.scene`) threaded through the utility
functions: camera data, render settings, the animation frame counter and
keyframe insertions used by `add_camera_pose`, and the global key-value
store.  The storage field is modelled from the spec: the class
`GlobalStorage` (src/main/GlobalStorage.py) is not part of the provided
sources; the spec describes it as "a small global key-value store for
passing auxiliary distortion-mapping data between the intrinsics setup and
a later post-processing step", modelled as an association list. -/
structure Scene (α : Type) where
  camera : BlenderCamera α
  render : RenderSettings α
  frame_end : ℤ
  camera_matrix_world : Matrix (Fin 4) (Fin 4) α
  keyframes : List (String × ℤ)
  storage : List (String × LensDistortionRecord α)
  deriving DecidableEq

/-- Modelled from the spec: `GlobalStorage.set(key, value)` of the global
key-value store (src/main/GlobalStorage.py, not in the provided sources). -/
def GlobalStorage.set {α : Type} (key : String) (value : LensDistortionRecord α)
    (s : Scene α) : Scene α :=
  { s with storage := (key, value) :: s.storage }

/-- Modelled from the spec: reading a key back from the global key-value
store (src/main/GlobalStorage.py, not in the provided sources). -/
def GlobalStorage.get {α : Type} (s : Scene α) (key : String) :
    Option (LensDistortionRecord α) :=
  s.storage.lookup key

variable {α : Type}

/-- `CameraUtility.get_sensor_size`: the sensor size in millimeters based
on the configured sensor_fit. -/
def get_sensor_size [LinearOrderedField α] (cam : BlenderCamera α) : α :=
  if cam.sensor_fit = "VERTICAL" then cam.sensor_height else cam.sensor_width

/-- `CameraUtility.get_view_fac_in_px`: the camera view in pixels. -/
def get_view_fac_in_px [LinearOrderedField α] (cam : BlenderCamera α)
    (pixel_aspect_x pixel_aspect_y : α)
    (resolution_x_in_px resolution_y_in_px : ℤ) : α :=
  let sensor_fit :=
    if cam.sensor_fit = "AUTO" then
      if pixel_aspect_x * (resolution_x_in_px : α) ≥
          pixel_aspect_y * (resolution_y_in_px : α) then "HORIZONTAL"
      else "VERTICAL"
    else cam.sensor_fit
  let pixel_aspect_ratio := pixel_aspect_y / pixel_aspect_x
  if sensor_fit = "HORIZONTAL" then (resolution_x_in_px : α)
  else pixel_aspect_ratio * (resolution_y_in_px : α)

/-- `CameraUtility.set_intrinsics_from_blender_params`.  On the exception
paths the Python function has already mutated `cam.lens_unit` before
raising; no claim observes the scene after an exception, so the model
returns `Except.error` with the scene dropped. -/
def set_intrinsics_from_blender_params [LinearOrderedField α] (lens : α)
    (image_width image_height : ℤ)
    (clip_start clip_end pixel_aspect_x pixel_aspect_y shift_x shift_y : α)
    (lens_unit : String) (s : Scene α) : Except String (Scene α) :=
  if lens_unit = "MILLIMETERS" then
    if lens < 1 then
      Except.error "The focal length is smaller than 1mm which is not allowed in blender: "
    else
      Except.ok { s with
        camera := { s.camera with
          lens_unit := lens_unit, lens := lens,
          clip_start := clip_start, clip_end := clip_end,
          shift_x := shift_x, shift_y := shift_y },
        render := { s.render with
          resolution_x := image_width, resolution_y := image_height,
          pixel_aspect_x := pixel_aspect_x, pixel_aspect_y := pixel_aspect_y } }
  else if lens_unit = "FOV" then
    Except.ok { s with
      camera := { s.camera with
        lens_unit := lens_unit, angle := lens,
        clip_start := clip_start, clip_end := clip_end,
        shift_x := shift_x, shift_y := shift_y },
      render := { s.render with
        resolution_x := image_width, resolution_y := image_height,
        pixel_aspect_x := pixel_aspect_x, pixel_aspect_y := pixel_aspect_y } }
  else Except.error ("No such lens unit: " ++ lens_unit)

/-- The 3x3 K matrix `[[fx, 0, cx], [0, fy, cy], [0, 0, 1]]`. -/
def mkK [LinearOrderedField α] (fx fy cx cy : α) : Matrix (Fin 3) (Fin 3) α :=
  !![fx, 0, cx; 0, fy, cy; 0, 0, 1]

/-- `CameraUtility.set_intrinsics_from_K_matrix`: set the camera
intrinsics via a K matrix.  Only the entries `K[0][0]`, `K[1][1]`,
`K[0][2]`, `K[1][2]` of the argument are read. -/
def set_intrinsics_from_K_matrix [LinearOrderedField α]
    (K : Matrix (Fin 3) (Fin 3) α) (image_width image_height : ℤ)
    (clip_start clip_end : α) (s : Scene α) : Except String (Scene α) :=
  let fx := K 0 0
  let fy := K 1 1
  let cx := K 0 2
  let cy := K 1 2
  -- If fx!=fy change pixel aspect ratio
  let pixel_aspect_y : α := if fx > fy then fx / fy else 1
  let pixel_aspect_x : α := if fx < fy then fy / fx else 1
  -- Compute sensor size in mm and view in px
  let pixel_aspect_ratio := pixel_aspect_y / pixel_aspect_x
  let view_fac_in_px :=
    get_view_fac_in_px s.camera pixel_aspect_x pixel_aspect_y image_width image_height
  let sensor_size_in_mm := get_sensor_size s.camera
  -- Convert focal length in px to focal length in mm
  let f_in_mm := fx * sensor_size_in_mm / view_fac_in_px
  -- Convert principal point in px to blenders internal format
  let shift_x := (cx - ((image_width : α) - 1) / 2) / (-view_fac_in_px)
  let shift_y := (cy - ((image_height : α) - 1) / 2) / view_fac_in_px * pixel_aspect_ratio
  set_intrinsics_from_blender_params f_in_mm image_width image_height
    clip_start clip_end pixel_aspect_x pixel_aspect_y shift_x shift_y
    "MILLIMETERS" s

/-- `CameraUtility.get_intrinsics_as_K_matrix`: the current intrinsics in
the form of a K matrix. -/
def get_intrinsics_as_K_matrix [LinearOrderedField α] (s : Scene α) :
    Matrix (Fin 3) (Fin 3) α :=
  let f_in_mm := s.camera.lens
  let resolution_x_in_px := s.render.resolution_x
  let resolution_y_in_px := s.render.resolution_y
  -- Compute sensor size in mm and view in px
  let pixel_aspect_ratio := s.render.pixel_aspect_y / s.render.pixel_aspect_x
  let view_fac_in_px :=
    get_view_fac_in_px s.camera s.render.pixel_aspect_x s.render.pixel_aspect_y
      resolution_x_in_px resolution_y_in_px
  let sensor_size_in_mm := get_sensor_size s.camera
  -- Convert focal length in mm to focal length in px
  let fx := f_in_mm / sensor_size_in_mm * view_fac_in_px
  let fy := fx / pixel_aspect_ratio
  -- Convert principal point in blenders format to px
  let cx := ((resolution_x_in_px : α) - 1) / 2 - s.camera.shift_x * view_fac_in_px
  let cy := ((resolution_y_in_px : α) - 1) / 2
    + s.camera.shift_y * view_fac_in_px / pixel_aspect_ratio
  mkK fx fy cx cy

/-- `CameraUtility.get_fov`: the horizontal and vertical FOV of the
current camera, `2 * np.arctan(resolution / 2 / K[i, i])`.  The host's
`np.arctan` is passed as the function parameter `arctan`. -/
def get_fov [LinearOrderedField α] (arctan : α → α) (s : Scene α) : α × α :=
  let K := get_intrinsics_as_K_matrix s
  (2 * arctan ((s.render.resolution_x : α) / 2 / K 0 0),
   2 * arctan ((s.render.resolution_y : α) / 2 / K 1 1))

/-- Boolean observer: an `Except` value is an error. -/
def exceptIsError {ε β : Type} : Except ε β → Bool
  | Except.error _ => true
  | Except.ok _ => false

/-- Boolean observer: an optional `Except` value is present and holds a
success. -/
def optionIsOk {ε β : Type} : Option (Except ε β) → Bool
  | some (Except.ok _) => true
  | _ => false

/-! ### The iterative lens-distortion inversion of `set_lens_distortion` -/

/-- One pixel's distorted x-coordinate at z = 1:
`x * radial_part + 2 * p2 * x * y + p1 * (r2 + 2 * np.square(x))`. -/
def distorted_x [LinearOrderedField α] (k1 k2 k3 p1 p2 x y : α) : α :=
  let r2 := x ^ 2 + y ^ 2
  let radial_part := 1 + k1 * r2 + k2 * r2 * r2 + k3 * r2 * r2 * r2
  x * radial_part + 2 * p2 * x * y + p1 * (r2 + 2 * x ^ 2)

/-- One pixel's distorted y-coordinate at z = 1:
`y * radial_part + 2 * p1 * x * y + p2 * (r2 + 2 * np.square(y))`. -/
def distorted_y [LinearOrderedField α] (k1 k2 k3 p1 p2 x y : α) : α :=
  let r2 := x ^ 2 + y ^ 2
  let radial_part := 1 + k1 * r2 + k2 * r2 * r2 + k3 * r2 * r2 * r2
  y * radial_part + 2 * p1 * x * y + p2 * (r2 + 2 * y ^ 2)

/-- The squared maximum residual
`np.max(np.hypot(fx * (x_ - P_und[0, :]), fy * (y_ - P_und[1, :]))) ^ 2`:
the per-pixel squares `(fx*(x_ - Px))^2 + (fy*(y_ - Py))^2` folded with
`max`.  (`np.max` of an empty array is an error in numpy; the fold
defaults to `0`, which is only reachable at zero image resolution.) -/
def errSq [LinearOrderedField α] (fx fy : α) (Px Py x_ y_ : List α) : α :=
  (List.zipWith (fun a b => a + b)
    (List.zipWith (fun a b => (fx * (a - b)) ^ 2) x_ Px)
    (List.zipWith (fun a b => (fy * (a - b)) ^ 2) y_ Py)).foldr max 0

/-- The mutable state of the fixed-point loop in `set_lens_distortion`:
the current undistorted projections `x`, `y`, the residual history `res`
(squares of the source's values, newest first; the source appends at the
end and reads `res[-1]`, `res[-2]`), the iteration counter `it` and the
step-size `factor`. -/
structure DistState (α : Type) where
  x : List α
  y : List α
  res : List α
  it : ℕ
  factor : α
  deriving DecidableEq

/-- The squared residual that one more iteration of the loop would
measure from state `s` (the loop body's `error` variable). -/
def step_err [LinearOrderedField α] (k1 k2 k3 p1 p2 fx fy : α)
    (Px Py : List α) (s : DistState α) : α :=
  errSq fx fy Px Py
    (List.zipWith (distorted_x k1 k2 k3 p1 p2) s.x s.y)
    (List.zipWith (distorted_y k1 k2 k3 p1 p2) s.x s.y)

/-- One iteration of the `while res[-1] > 0.2` loop body of
`set_lens_distortion`: compute the distorted projections and the residual,
append it and bump `it`, halve `factor` on a stall
(`it > 1 and res[-1] > res[-2] * .999`, here on squares with
`.999^2 = 998001/1000000`), raise on a stall after more than 1000
iterations or with a residual above `1e9` (squared: `10^18`), and
otherwise move `x`, `y` against the residual scaled by `factor`. -/
def distStep [LinearOrderedField α] (k1 k2 k3 p1 p2 fx fy : α)
    (Px Py : List α) (s : DistState α) : Except String (DistState α) :=
  let x_ := List.zipWith (distorted_x k1 k2 k3 p1 p2) s.x s.y
  let y_ := List.zipWith (distorted_y k1 k2 k3 p1 p2) s.x s.y
  let error := errSq fx fy Px Py x_ y_
  let res := error :: s.res
  let it := s.it + 1
  let stalled : Bool :=
    decide (1 < it) && decide (s.res.headD 0 * (998001 / 1000000 : α) < error)
  let factor := if stalled then s.factor * (1 / 2 : α) else s.factor
  if stalled && decide (1000 < it) then
    Except.error "The iterative distortion algorithm is unstable/stalled after 1000 iterations. STOP."
  else if stalled && decide ((10 ^ 18 : α) < error) then
    Except.error "The iterative distortion algorithm is unstable. STOP."
  else
    Except.ok
      { x := List.zipWith (fun a d => a - d * factor) s.x
          (List.zipWith (fun a b => a - b) x_ Px),
        y := List.zipWith (fun a d => a - d * factor) s.y
          (List.zipWith (fun a b => a - b) y_ Py),
        res := res, it := it, factor := factor }

/-- The `while res[-1] > 0.2` loop (on squared residuals:
`res[-1] > 1/25`) with explicit fuel; `none` means the fuel ran out before
the loop exited or raised. -/
def distLoopFuel [LinearOrderedField α] (k1 k2 k3 p1 p2 fx fy : α)
    (Px Py : List α) : ℕ → DistState α → Option (Except String (DistState α))
  | 0, _ => none
  | fuel + 1, s =>
    if s.res.headD 0 > (1 / 25 : α) then
      match distStep k1 k2 k3 p1 p2 fx fy Px Py s with
      | Except.error e => some (Except.error e)
      | Except.ok s' => distLoopFuel k1 k2 k3 p1 p2 fx fy Px Py fuel s'
    else some (Except.ok s)

/-- The loop's initial state: `x`, `y` start at the undistorted pinhole
projections, `res = [1e3]` (squared: `[10^6]`), `it = 0`, `factor = 1`. -/
def initDistState [LinearOrderedField α] (Px Py : List α) : DistState α :=
  { x := Px, y := Py, res := [(10 : α) ^ 6], it := 0, factor := 1 }

/-- `np.repeat(np.arange(0, desired_dis_res[0]), desired_dis_res[1])`:
the row index of every pixel in row-major order. -/
def pixel_rows (resolution_y resolution_x : ℤ) : List ℕ :=
  (List.range resolution_y.toNat).flatMap
    (fun r => List.replicate resolution_x.toNat r)

/-- `np.tile(np.arange(0, desired_dis_res[1]), desired_dis_res[0])`:
the column index of every pixel in row-major order. -/
def pixel_columns (resolution_y resolution_x : ℤ) : List ℕ :=
  (List.range resolution_y.toNat).flatMap
    (fun _ => List.range resolution_x.toNat)

/-- First coordinate of
`P_und = np.linalg.inv(camera_K_matrix) @ [column, row, 1]`: for the
upper-triangular K matrix `[[fx,0,cx],[0,fy,cy],[0,0,1]]` produced by
`get_intrinsics_as_K_matrix`, the inverse maps pixel `(row, column)` to
`((column - cx) / fx, (row - cy) / fy)`. -/
def P_und_x [LinearOrderedField α] (fx cx : α) (columns : List ℕ) : List α :=
  columns.map (fun c => ((c : α) - cx) / fx)

/-- Second coordinate of `P_und`; see `P_und_x`. -/
def P_und_y [LinearOrderedField α] (fy cy : α) (rows : List ℕ) : List α :=
  rows.map (fun r => ((r : α) - cy) / fy)

/-- `np.sign(m) * np.ceil(np.abs(m))` (an integer). -/
def np_sign_ceil [LinearOrderedField α] [FloorRing α] (m : α) : ℤ :=
  (if 0 < m then 1 else if m < 0 then -1 else 0) * ⌈|m|⌉

/-- `np.min` of a list (numpy errors on an empty array; the fold defaults
to `0`, only reachable at zero image resolution). -/
def np_min [LinearOrder α] [Zero α] (l : List α) : α := l.foldr min (l.headD 0)

/-- `np.max` of a list; see `np_min`. -/
def np_max [LinearOrder α] [Zero α] (l : List α) : α := l.foldr max (l.headD 0)

/-- `CameraUtility.set_lens_distortion` up to but not including the final
`GlobalStorage.set` call, returning the updated scene together with the
record that the final line stores; `set_lens_distortion` itself adds the
record to the store.  `fuel` bounds the fixed-point loop (see
`distLoopFuel`); `none` means the fuel ran out. -/
def set_lens_distortion_aux [LinearOrderedField α] [FloorRing α]
    (k1 k2 k3 p1 p2 : α) (fuel : ℕ) (s : Scene α) :
    Option (Except String (Scene α × LensDistortionRecord α)) :=
  -- save the original image resolution
  let original_image_resolution := (s.render.resolution_y, s.render.resolution_x)
  let camera_K_matrix := get_intrinsics_as_K_matrix s
  let fx := camera_K_matrix 0 0
  let fy := camera_K_matrix 1 1
  let cx := camera_K_matrix 0 2
  let cy := camera_K_matrix 1 2
  let row := pixel_rows s.render.resolution_y s.render.resolution_x
  let column := pixel_columns s.render.resolution_y s.render.resolution_x
  let Px := P_und_x fx cx column
  let Py := P_und_y fy cy row
  match distLoopFuel k1 k2 k3 p1 p2 fx fy Px Py fuel (initDistState Px Py) with
  | none => none
  | some (Except.error e) => some (Except.error e)
  | some (Except.ok sf) =>
    -- u and v are the pixel coordinates on the undistorted image
    let u := sf.x.map (fun xi => fx * xi + cx)
    let v := sf.y.map (fun yi => fy * yi + cy)
    let min_und_column_needed := np_sign_ceil (np_min u)
    let max_und_column_needed := np_sign_ceil (np_max u)
    let min_und_row_needed := np_sign_ceil (np_min v)
    let max_und_row_needed := np_sign_ceil (np_max v)
    let columns_needed := max_und_column_needed - (min_und_column_needed - 1)
    let rows_needed := max_und_row_needed - (min_und_row_needed - 1)
    let cx_new := cx - ((min_und_column_needed : α) - 1) + 1
    let cy_new := cy - ((min_und_row_needed : α) - 1) + 1
    -- newly suggested resolution, then += 2 against boundary effects
    let new_image_resolution := (columns_needed + 2, rows_needed + 2)
    -- mapping_coords = vstack [v; u], shifted to the new resolution
    let mapping_coords :=
      (v.map (fun a => a + (cy_new - cy)), u.map (fun a => a + (cx_new - cx)))
    let camera_changed_K_matrix := mkK fx fy cx_new cy_new
    let clip_start := s.camera.clip_start
    let clip_end := s.camera.clip_end
    match set_intrinsics_from_K_matrix camera_changed_K_matrix
        new_image_resolution.1 new_image_resolution.2 clip_start clip_end s with
    | Except.error e => some (Except.error e)
    | Except.ok s' =>
      some (Except.ok (s', { mapping_coords := mapping_coords,
                             original_image_res := original_image_resolution }))

/-- `CameraUtility.set_lens_distortion`: the pipeline of
`set_lens_distortion_aux` followed by the final
`GlobalStorage.set("_lens_distortion_is_used", ...)`. -/
def set_lens_distortion [LinearOrderedField α] [FloorRing α]
    (k1 k2 k3 p1 p2 : α) (fuel : ℕ) (s : Scene α) :
    Option (Except String (Scene α)) :=
  (set_lens_distortion_aux k1 k2 k3 p1 p2 fuel s).map
    (Except.map (fun pr => GlobalStorage.set "_lens_distortion_is_used" pr.2 pr.1))

/-! ### `add_camera_pose` and `add_depth_of_field` -/

/-- `CameraUtility.add_camera_pose`: set the camera-to-world matrix, pick
the frame (`bpy.context.scene.frame_end` when none is given), extend
`frame_end` to at least `frame + 1`, and keyframe the camera's location
and rotation at that frame (`keyframe_insert` is modelled as recording the
`(data_path, frame)` pair).  Returns the updated scene and the frame. -/
def add_camera_pose (cam2world_matrix : Matrix (Fin 4) (Fin 4) α)
    (frame : Option ℤ) (s : Scene α) : Scene α × ℤ :=
  let s1 := { s with camera_matrix_world := cam2world_matrix }
  let f := match frame with
    | none => s1.frame_end
    | some fr => fr
  let s2 := if s1.frame_end < f + 1 then { s1 with frame_end := f + 1 } else s1
  let s3 := { s2 with
    keyframes := ("rotation_euler", f) :: ("location", f) :: s2.keyframes }
  (s3, f)

/-- The depth-of-field block `camera.dof` of a Blender camera; the focal
point object reference is modelled by an arbitrary type `β`. -/
structure DofSettings (α β : Type) where
  use_dof : Bool
  focus_object : Option β
  focus_distance : α
  aperture_fstop : α
  aperture_blades : ℤ
  aperture_rotation : α
  aperture_ratio : α

/-- `CameraUtility.add_depth_of_field` acting on the camera's `dof`
block.  The Python function sets `use_dof = True` before the possible
`RuntimeError`; no claim observes the camera after an exception, so the
model returns `Except.error` with the state dropped. -/
def add_depth_of_field {β : Type} [LinearOrderedField α]
    (camera : DofSettings α β) (focal_point_obj : Option β)
    (fstop_value : α) (aperture_blades : ℤ)
    (aperture_rotation : α) (aperture_ratio : α) (focal_distance : α) :
    Except String (DofSettings α β) :=
  let c1 := { camera with use_dof := true }
  match focal_point_obj with
  | some obj =>
    Except.ok { c1 with
      focus_object := some obj,
      aperture_fstop := fstop_value, aperture_blades := aperture_blades,
      aperture_rotation := aperture_rotation, aperture_ratio := aperture_ratio }
  | none =>
    if focal_distance ≥ 0 then
      Except.ok { c1 with
        focus_distance := focal_distance,
        aperture_fstop := fstop_value, aperture_blades := aperture_blades,
        aperture_rotation := aperture_rotation, aperture_ratio := aperture_ratio }
    else
      Except.error "Either a focal_point_obj have to be given or the focal_distance has to be higher than zero."

/-! ### Entry lemmas for `mkK` -/

theorem mkK_00 [LinearOrderedField α] (fx fy cx cy : α) :
    mkK fx fy cx cy 0 0 = fx := rfl

theorem mkK_11 [LinearOrderedField α] (fx fy cx cy : α) :
    mkK fx fy cx cy 1 1 = fy := rfl

theorem mkK_02 [LinearOrderedField α] (fx fy cx cy : α) :
    mkK fx fy cx cy 0 2 = cx := rfl

theorem mkK_12 [LinearOrderedField α] (fx fy cx cy : α) :
    mkK fx fy cx cy 1 2 = cy := rfl

/-- Claim C2: `set_intrinsics_from_blender_params` raises an exception if
and only if `lens_unit` is `"MILLIMETERS"` and `lens < 1`, or `lens_unit`
is neither `"MILLIMETERS"` nor `"FOV"`; all other calls return normally. -/
theorem blender_params_error_iff [LinearOrderedField α] (lens : α)
    (image_width image_height : ℤ)
    (clip_start clip_end pixel_aspect_x pixel_aspect_y shift_x shift_y : α)
    (lens_unit : String) (s : Scene α) :
    exceptIsError (set_intrinsics_from_blender_params lens image_width image_height
        clip_start clip_end pixel_aspect_x pixel_aspect_y shift_x shift_y
        lens_unit s) = true ↔
      (lens_unit = "MILLIMETERS" ∧ lens < 1) ∨
        (lens_unit ≠ "MILLIMETERS" ∧ lens_unit ≠ "FOV") := by
  unfold set_intrinsics_from_blender_params
  split_ifs with h1 h2 h3 <;> simp_all [exceptIsError]

/-- Claim C8: `add_camera_pose` returns a frame `f` with
`scene.frame_end ≥ f + 1` afterwards; when `frame` is `None` the returned
frame is the old `scene.frame_end`; the camera's world matrix becomes the
given matrix and location and rotation are keyframed at `f`. -/
theorem add_camera_pose_spec (cam2world_matrix : Matrix (Fin 4) (Fin 4) α)
    (frame : Option ℤ) (s : Scene α) :
    (add_camera_pose cam2world_matrix frame s).2 + 1 ≤
        (add_camera_pose cam2world_matrix frame s).1.frame_end ∧
      (frame = none →
        (add_camera_pose cam2world_matrix frame s).2 = s.frame_end) ∧
      (add_camera_pose cam2world_matrix frame s).1.camera_matrix_world =
        cam2world_matrix ∧
      ("location", (add_camera_pose cam2world_matrix frame s).2) ∈
        (add_camera_pose cam2world_matrix frame s).1.keyframes ∧
      ("rotation_euler", (add_camera_pose cam2world_matrix frame s).2) ∈
        (add_camera_pose cam2world_matrix frame s).1.keyframes := by
  unfold add_camera_pose
  cases frame <;> dsimp only [] <;> split_ifs with h <;>
    refine ⟨?_, ?_, rfl, ?_, ?_⟩ <;> simp_all

/-- Claim C10: `add_depth_of_field` raises iff `focal_point_obj` is absent
and `focal_distance < 0`; with a focal point object the focus object is
set and `focus_distance` is unchanged; every non-raising call enables
`use_dof` and sets fstop, blades, rotation and ratio to the arguments. -/
theorem add_depth_of_field_spec {β : Type} [LinearOrderedField α]
    (camera : DofSettings α β) (focal_point_obj : Option β) (fstop_value : α)
    (aperture_blades : ℤ) (aperture_rotation : α) (aperture_ratio : α)
    (focal_distance : α) :
    (exceptIsError (add_depth_of_field camera focal_point_obj fstop_value
          aperture_blades aperture_rotation aperture_ratio focal_distance) = true ↔
        focal_point_obj = none ∧ focal_distance < 0) ∧
      (∀ obj c', focal_point_obj = some obj →
        add_depth_of_field camera focal_point_obj fstop_value aperture_blades
            aperture_rotation aperture_ratio focal_distance = Except.ok c' →
        c'.focus_object = some obj ∧ c'.focus_distance = camera.focus_distance) ∧
      (∀ c', add_depth_of_field camera focal_point_obj fstop_value aperture_blades
            aperture_rotation aperture_ratio focal_distance = Except.ok c' →
        c'.use_dof = true ∧ c'.aperture_fstop = fstop_value ∧
          c'.aperture_blades = aperture_blades ∧
          c'.aperture_rotation = aperture_rotation ∧
          c'.aperture_ratio = aperture_ratio) := by
  unfold add_depth_of_field
  cases focal_point_obj with
  | some obj =>
    dsimp only []
    refine ⟨by simp [exceptIsError], ?_, ?_⟩
    · intro o c' ho hc
      injection ho with ho'
      subst ho'
      injection hc with hc'
      subst hc'
      exact ⟨rfl, rfl⟩
    · intro c' hc
      injection hc with hc'
      subst hc'
      exact ⟨rfl, rfl, rfl, rfl, rfl⟩
  | none =>
    dsimp only []
    by_cases hd : 0 ≤ focal_distance
    · rw [if_pos hd]
      refine ⟨by simp [exceptIsError, not_lt.2 hd], ?_, ?_⟩
      · intro o c' ho _hc
        exact absurd ho (by simp)
      · intro c' hc
        injection hc with hc'
        subst hc'
        exact ⟨rfl, rfl, rfl, rfl, rfl⟩
    · rw [if_neg hd]
      refine ⟨by simp [exceptIsError, not_le.1 hd], ?_, ?_⟩
      · intro o c' ho _hc
        exact absurd ho (by simp)
      · intro c' hc
        exact absurd hc (by simp)

/-- Congruence: `get_view_fac_in_px` reads only `sensor_fit` from the
camera. -/
theorem get_view_fac_sensor_fit [LinearOrderedField α]
    (c1 c2 : BlenderCamera α) (h : c1.sensor_fit = c2.sensor_fit)
    (pax pay : α) (rx ry : ℤ) :
    get_view_fac_in_px c1 pax pay rx ry = get_view_fac_in_px c2 pax pay rx ry := by
  unfold get_view_fac_in_px
  rw [h]

/-- Congruence: `get_sensor_size` reads only the sensor fields. -/
theorem get_sensor_size_congr [LinearOrderedField α]
    (c1 c2 : BlenderCamera α) (h1 : c1.sensor_fit = c2.sensor_fit)
    (h2 : c1.sensor_width = c2.sensor_width)
    (h3 : c1.sensor_height = c2.sensor_height) :
    get_sensor_size c1 = get_sensor_size c2 := by
  unfold get_sensor_size
  rw [h1, h2, h3]

/-- `get_view_fac_in_px` is unchanged by updating the non-sensor camera
fields (it reads only `sensor_fit`). -/
theorem get_view_fac_set_fields [LinearOrderedField α] (c : BlenderCamera α)
    (l : α) (lu : String) (sx sy cs ce : α) (pax pay : α) (rx ry : ℤ) :
    get_view_fac_in_px
      { lens := l, lens_unit := lu, angle := c.angle, sensor_fit := c.sensor_fit,
        sensor_width := c.sensor_width, sensor_height := c.sensor_height,
        shift_x := sx, shift_y := sy, clip_start := cs, clip_end := ce }
      pax pay rx ry = get_view_fac_in_px c pax pay rx ry :=
  get_view_fac_sensor_fit _ c rfl pax pay rx ry

/-- `get_sensor_size` is unchanged by updating the non-sensor camera
fields. -/
theorem get_sensor_size_set_fields [LinearOrderedField α] (c : BlenderCamera α)
    (l : α) (lu : String) (sx sy cs ce : α) :
    get_sensor_size
      { lens := l, lens_unit := lu, angle := c.angle, sensor_fit := c.sensor_fit,
        sensor_width := c.sensor_width, sensor_height := c.sensor_height,
        shift_x := sx, shift_y := sy, clip_start := cs, clip_end := ce } =
      get_sensor_size c :=
  get_sensor_size_congr _ c rfl rfl rfl

/-- Success inversion for `set_intrinsics_from_K_matrix`: a call that
returns normally has a derived focal length of at least 1mm, and the
resulting scene is the record written by
`set_intrinsics_from_blender_params` in the `"MILLIMETERS"` branch. -/
theorem set_K_ok_inv [LinearOrderedField α]
    (fx fy cx cy : α) (image_width image_height : ℤ)
    (clip_start clip_end : α) (s s' : Scene α)
    (hok : set_intrinsics_from_K_matrix (mkK fx fy cx cy) image_width
      image_height clip_start clip_end s = Except.ok s') :
    1 ≤ fx * get_sensor_size s.camera /
        get_view_fac_in_px s.camera (if fx < fy then fy / fx else 1)
          (if fx > fy then fx / fy else 1) image_width image_height ∧
      s' = { s with
        camera := { s.camera with
          lens_unit := "MILLIMETERS",
          lens := fx * get_sensor_size s.camera /
            get_view_fac_in_px s.camera (if fx < fy then fy / fx else 1)
              (if fx > fy then fx / fy else 1) image_width image_height,
          clip_start := clip_start, clip_end := clip_end,
          shift_x := (cx - ((image_width : α) - 1) / 2) /
            (-get_view_fac_in_px s.camera (if fx < fy then fy / fx else 1)
              (if fx > fy then fx / fy else 1) image_width image_height),
          shift_y := (cy - ((image_height : α) - 1) / 2) /
            get_view_fac_in_px s.camera (if fx < fy then fy / fx else 1)
              (if fx > fy then fx / fy else 1) image_width image_height *
            ((if fx > fy then fx / fy else 1) / (if fx < fy then fy / fx else 1)) },
        render := { s.render with
          resolution_x := image_width, resolution_y := image_height,
          pixel_aspect_x := if fx < fy then fy / fx else 1,
          pixel_aspect_y := if fx > fy then fx / fy else 1 } } := by
  unfold set_intrinsics_from_K_matrix set_intrinsics_from_blender_params at hok
  rw [if_pos rfl] at hok
  dsimp only [mkK_00, mkK_11, mkK_02, mkK_12] at hok
  set pay := (if fx > fy then fx / fy else 1 : α) with hpay
  set pax := (if fx < fy then fy / fx else 1 : α) with hpax
  set V := get_view_fac_in_px s.camera pax pay image_width image_height with hVdef
  by_cases hf : fx * get_sensor_size s.camera / V < 1
  · rw [if_pos hf] at hok
    exact absurd hok (by simp)
  · rw [if_neg hf] at hok
    injection hok with h
    exact ⟨not_lt.1 hf, h.symm⟩

/-- Claim C9 (amended): when the K matrix has `fx > 0` and `fy > 0`, every
completing call to `set_intrinsics_from_K_matrix` sets pixel aspect ratios
with both at least 1 and at most one strictly greater than 1, following
the source's formulas (`fx > fy`: `pixel_aspect_y = fx / fy`; `fx < fy`:
`pixel_aspect_x = fy / fx`; equal: both 1).  Without the positivity
assumptions the claim fails, see `pixel_aspect_below_one_cex`. -/
theorem pixel_aspect_invariant [LinearOrderedField α]
    (fx fy cx cy : α) (image_width image_height : ℤ) (clip_start clip_end : α)
    (s s' : Scene α) (hfx : 0 < fx) (hfy : 0 < fy)
    (hok : set_intrinsics_from_K_matrix (mkK fx fy cx cy) image_width
      image_height clip_start clip_end s = Except.ok s') :
    1 ≤ s'.render.pixel_aspect_x ∧ 1 ≤ s'.render.pixel_aspect_y ∧
      ¬(1 < s'.render.pixel_aspect_x ∧ 1 < s'.render.pixel_aspect_y) ∧
      (fy < fx → s'.render.pixel_aspect_y = fx / fy ∧ s'.render.pixel_aspect_x = 1) ∧
      (fx < fy → s'.render.pixel_aspect_x = fy / fx ∧ s'.render.pixel_aspect_y = 1) ∧
      (fx = fy → s'.render.pixel_aspect_x = 1 ∧ s'.render.pixel_aspect_y = 1) := by
  obtain ⟨-, rfl⟩ := set_K_ok_inv fx fy cx cy image_width image_height
    clip_start clip_end s s' hok
  dsimp only []
  rcases lt_trichotomy fx fy with h | h | h
  · rw [if_pos h, if_neg (lt_asymm h)]
    exact ⟨(one_le_div hfx).2 h.le, le_refl 1,
      fun hc => lt_irrefl 1 hc.2,
      fun hc => absurd hc (lt_asymm h),
      fun _ => ⟨rfl, rfl⟩,
      fun hc => absurd hc h.ne⟩
  · rw [if_neg (by rw [h]; exact lt_irrefl fy), if_neg (by rw [h]; exact lt_irrefl fy)]
    exact ⟨le_refl 1, le_refl 1,
      fun hc => lt_irrefl 1 hc.1,
      fun hc => absurd hc (by rw [h]; exact lt_irrefl fy),
      fun hc => absurd hc (by rw [h]; exact lt_irrefl fy),
      fun _ => ⟨rfl, rfl⟩⟩
  · rw [if_neg (lt_asymm h), if_pos h]
    exact ⟨le_refl 1, (one_le_div hfy).2 h.le,
      fun hc => lt_irrefl 1 hc.1,
      fun _ => ⟨rfl, rfl⟩,
      fun hc => absurd hc (lt_asymm h),
      fun hc => absurd hc h.ne'⟩

/-- Claim C1: for every K matrix `[[fx,0,cx],[0,fy,cy],[0,0,1]]` with
`fx, fy > 0`, positive image size, and fixed sensor size and sensor_fit,
if `set_intrinsics_from_K_matrix` returns without raising (derived focal
length at least 1mm) then `get_intrinsics_as_K_matrix` returns exactly the
same `fx`, `fy`, `cx`, `cy` (exact arithmetic in any linear ordered field,
in particular over the reals). -/
theorem K_matrix_roundtrip [LinearOrderedField α]
    (fx fy cx cy : α) (image_width image_height : ℤ) (clip_start clip_end : α)
    (s s' : Scene α) (hfx : 0 < fx) (hfy : 0 < fy)
    (hw : 0 < image_width) (hh : 0 < image_height)
    (hok : set_intrinsics_from_K_matrix (mkK fx fy cx cy) image_width
      image_height clip_start clip_end s = Except.ok s') :
    get_intrinsics_as_K_matrix s' = mkK fx fy cx cy := by
  obtain ⟨hf, rfl⟩ := set_K_ok_inv fx fy cx cy image_width image_height
    clip_start clip_end s s' hok
  unfold get_intrinsics_as_K_matrix
  dsimp only []
  set pay := (if fx > fy then fx / fy else 1 : α) with hpay
  set pax := (if fx < fy then fy / fx else 1 : α) with hpax
  set V := get_view_fac_in_px s.camera pax pay image_width image_height with hVdef
  set S := get_sensor_size s.camera with hSdef
  rw [get_view_fac_set_fields s.camera, ← hVdef,
    get_sensor_size_set_fields s.camera, ← hSdef]
  have hS : S ≠ 0 := by
    intro h0
    rw [h0] at hf
    simp at hf
    linarith
  have hV : V ≠ 0 := by
    intro h0
    rw [h0] at hf
    simp at hf
    linarith
  have hpax0 : pax ≠ 0 := by
    rw [hpax]
    split_ifs with hc
    · exact (div_pos hfy hfx).ne'
    · exact one_ne_zero
  have hpay0 : pay ≠ 0 := by
    rw [hpay]
    split_ifs with hc
    · exact (div_pos hfx hfy).ne'
    · exact one_ne_zero
  have hA : fx * S / V / S * V = fx := by
    field_simp
    ring
  rw [hA]
  have hB : fx / (pay / pax) = fy := by
    rw [hpay, hpax]
    rcases lt_trichotomy fx fy with hc | hc | hc
    · rw [if_neg (lt_asymm hc), if_pos hc]
      field_simp
    · rw [if_neg (by rw [hc]; exact lt_irrefl fy),
        if_neg (by rw [hc]; exact lt_irrefl fy)]
      simpa using hc
    · rw [if_pos hc, if_neg (lt_asymm hc)]
      field_simp
  rw [hB]
  have hC : ((image_width : α) - 1) / 2 -
      (cx - ((image_width : α) - 1) / 2) / -V * V = cx := by
    field_simp
    ring
  have hD : ((image_height : α) - 1) / 2 +
      (cy - ((image_height : α) - 1) / 2) / V * (pay / pax) * V / (pay / pax) = cy := by
    field_simp
    ring
  rw [hC, hD]

/-- Unfolding equation of `distLoopFuel` at positive fuel. -/
theorem distLoopFuel_succ [LinearOrderedField α] (k1 k2 k3 p1 p2 fx fy : α)
    (Px Py : List α) (fuel : ℕ) (s : DistState α) :
    distLoopFuel k1 k2 k3 p1 p2 fx fy Px Py (fuel + 1) s =
      if s.res.headD 0 > (1 / 25 : α) then
        match distStep k1 k2 k3 p1 p2 fx fy Px Py s with
        | Except.error e => some (Except.error e)
        | Except.ok s' => distLoopFuel k1 k2 k3 p1 p2 fx fy Px Py fuel s'
      else some (Except.ok s) := rfl

/-- Inversion of a non-raising loop iteration: the counter advances, the
newest residual is the measured one, and past 1000 iterations a
non-raising step cannot have stalled, so the squared residual shrank by
the factor `0.999^2`. -/
theorem distStep_ok_inv [LinearOrderedField α] (k1 k2 k3 p1 p2 fx fy : α)
    (Px Py : List α) (s s' : DistState α)
    (h : distStep k1 k2 k3 p1 p2 fx fy Px Py s = Except.ok s') :
    s'.it = s.it + 1 ∧
      s'.res.headD 0 = step_err k1 k2 k3 p1 p2 fx fy Px Py s ∧
      (1000 < s.it + 1 →
        s'.res.headD 0 ≤ s.res.headD 0 * (998001 / 1000000 : α)) := by
  unfold step_err
  unfold distStep at h
  dsimp only [] at h
  split_ifs at h with h1 h2 h3
  all_goals
    injection h with h'
  all_goals
    subst h'
  all_goals
    refine ⟨rfl, rfl, ?_⟩
  all_goals
    intro hit
  all_goals
    simp only [List.headD_cons]
  all_goals
    by_contra hcon
  all_goals
    simp only [Bool.and_eq_true, decide_eq_true_eq, not_and, not_lt] at h1
  all_goals
    exact absurd hit (not_lt.2 (h1 ⟨by omega, not_le.1 hcon⟩))

/-- Claim C3 (amended): a loop iteration of `set_lens_distortion` raises
an exception if and only if the stall test fires (`it > 1` and the new
residual exceeds `0.999` times the previous one; on squares,
`998001/1000000`) and in addition the iteration count exceeds 1000 or the
residual exceeds `1e9` (squared: `10^18`).  More than 1000 iterations or a
residual above `1e9` alone, while the residual is still improving, does
not raise; see `residual_above_1e9_returns`. -/
theorem distStep_error_iff [LinearOrderedField α] (k1 k2 k3 p1 p2 fx fy : α)
    (Px Py : List α) (s : DistState α) :
    exceptIsError (distStep k1 k2 k3 p1 p2 fx fy Px Py s) = true ↔
      (1 < s.it + 1 ∧
          s.res.headD 0 * (998001 / 1000000 : α) <
            step_err k1 k2 k3 p1 p2 fx fy Px Py s) ∧
        (1000 < s.it + 1 ∨
          (10 ^ 18 : α) < step_err k1 k2 k3 p1 p2 fx fy Px Py s) := by
  unfold distStep step_err
  dsimp only []
  split_ifs with h1 h2 <;>
    simp only [exceptIsError, Bool.and_eq_true, decide_eq_true_eq] at h1 ⊢ <;>
    try simp only [Bool.and_eq_true, decide_eq_true_eq] at h2 <;>
    tauto
  · tauto

/-- Claim C4 (amended), positive part: the loop exits normally only when
the last measured squared residual (`res[-1]`, measured for the iterate
`x`, `y` held before the final update) is at most `0.2^2 = 1/25`. -/
theorem distLoop_exit_residual_le [LinearOrderedField α]
    (k1 k2 k3 p1 p2 fx fy : α) (Px Py : List α) :
    ∀ (fuel : ℕ) (s s' : DistState α),
      distLoopFuel k1 k2 k3 p1 p2 fx fy Px Py fuel s = some (Except.ok s') →
      s'.res.headD 0 ≤ (1 / 25 : α) := by
  intro fuel
  induction fuel with
  | zero =>
    intro s s' h
    exact absurd h (by simp [distLoopFuel])
  | succ n ih =>
    intro s s' h
    rw [distLoopFuel_succ] at h
    split_ifs at h with hg
    · split at h
      · exact absurd h (by simp)
      · exact ih _ s' h
    · injection h with h'
      injection h' with h''
      rw [← h'']
      exact not_lt.1 hg

/-- In an archimedean field the squared residual, shrunk by
`998001/1000000` per step, eventually drops below the exit threshold
`1/25`. -/
theorem distN_exists [LinearOrderedField α] [Archimedean α] (r : α) :
    ∃ n : ℕ, r * ((998001 : α) / 1000000) ^ n ≤ 1 / 25 := by
  rcases le_or_lt r 0 with hr | hr
  · exact ⟨0, by rw [pow_zero, mul_one]; exact hr.trans (by norm_num)⟩
  · obtain ⟨n, hn⟩ := exists_pow_lt_of_lt_one
      (show (0 : α) < 1 / 25 / r from div_pos (by norm_num) hr)
      (show (998001 : α) / 1000000 < 1 by norm_num)
    refine ⟨n, le_of_lt ?_⟩
    have h2 := (lt_div_iff hr).1 hn
    calc r * ((998001 : α) / 1000000) ^ n
        = ((998001 : α) / 1000000) ^ n * r := mul_comm _ _
      _ < 1 / 25 := h2

/-- The number of geometric shrink steps that brings a squared residual
of `r` below the exit threshold; the termination measure of the
distortion loop once more than 1000 iterations have passed. -/
def distN [LinearOrderedField α] [Archimedean α] (r : α) : ℕ :=
  Nat.find (distN_exists r)

theorem distN_pos [LinearOrderedField α] [Archimedean α] (r : α)
    (h : 1 / 25 < r) : 0 < distN r := by
  rcases Nat.eq_zero_or_pos (distN r) with h0 | h0
  · exfalso
    have hs : r * ((998001 : α) / 1000000) ^ distN r ≤ 1 / 25 :=
      Nat.find_spec (distN_exists r)
    rw [h0, pow_zero, mul_one] at hs
    exact absurd hs (not_le.2 h)
  · exact h0

/-- A non-stalling iteration strictly decreases the measure `distN`. -/
theorem distN_decr [LinearOrderedField α] [Archimedean α] (r e : α)
    (hr : 1 / 25 < r) (he : e ≤ r * ((998001 : α) / 1000000)) :
    distN e < distN r := by
  have hpos := distN_pos r hr
  have hk : r * ((998001 : α) / 1000000) ^ distN r ≤ 1 / 25 :=
    Nat.find_spec (distN_exists r)
  have hle : e * ((998001 : α) / 1000000) ^ (distN r - 1) ≤ 1 / 25 := by
    have hnn : (0 : α) ≤ ((998001 : α) / 1000000) ^ (distN r - 1) := by positivity
    calc e * ((998001 : α) / 1000000) ^ (distN r - 1)
        ≤ r * ((998001 : α) / 1000000) *
            ((998001 : α) / 1000000) ^ (distN r - 1) :=
          mul_le_mul_of_nonneg_right he hnn
      _ = r * ((998001 : α) / 1000000) ^ (distN r - 1 + 1) := by
          rw [pow_succ]; ring
      _ = r * ((998001 : α) / 1000000) ^ distN r := by
          rw [Nat.sub_add_cancel hpos]
      _ ≤ 1 / 25 := hk
  have hfind : distN e ≤ distN r - 1 := Nat.find_min' (distN_exists e) hle
  omega

/-- Totality of the loop once the iteration counter is past 1000: from
then on every non-raising step shrinks the residual geometrically, so the
loop exits or raises within finitely many steps. -/
theorem distLoop_total_high [LinearOrderedField α] [Archimedean α]
    (k1 k2 k3 p1 p2 fx fy : α) (Px Py : List α) :
    ∀ (N : ℕ) (s : DistState α), distN (s.res.headD 0) ≤ N → 1000 < s.it →
      ∃ fuel, (distLoopFuel k1 k2 k3 p1 p2 fx fy Px Py fuel s).isSome = true := by
  intro N
  induction N with
  | zero =>
    intro s hN _hit
    have h0 : distN (s.res.headD 0) = 0 := Nat.le_zero.1 hN
    have hs : s.res.headD 0 * ((998001 : α) / 1000000) ^ distN (s.res.headD 0)
        ≤ 1 / 25 := Nat.find_spec (distN_exists (s.res.headD 0))
    rw [h0, pow_zero, mul_one] at hs
    refine ⟨1, ?_⟩
    rw [show (1 : ℕ) = 0 + 1 from rfl, distLoopFuel_succ, if_neg (not_lt.2 hs)]
    rfl
  | succ N ih =>
    intro s hN hit
    by_cases hg : s.res.headD 0 > (1 / 25 : α)
    · cases hstep : distStep k1 k2 k3 p1 p2 fx fy Px Py s with
      | error e =>
        refine ⟨1, ?_⟩
        rw [show (1 : ℕ) = 0 + 1 from rfl, distLoopFuel_succ, if_pos hg, hstep]
        rfl
      | ok s2 =>
        obtain ⟨hit2, _hres2, himp⟩ :=
          distStep_ok_inv k1 k2 k3 p1 p2 fx fy Px Py s s2 hstep
        have hdec : distN (s2.res.headD 0) < distN (s.res.headD 0) :=
          distN_decr (s.res.headD 0) (s2.res.headD 0) hg (himp (by omega))
        obtain ⟨fuel, hf⟩ := ih s2 (by omega) (by omega)
        refine ⟨fuel + 1, ?_⟩
        rw [distLoopFuel_succ, if_pos hg, hstep]
        exact hf
    · refine ⟨1, ?_⟩
      rw [show (1 : ℕ) = 0 + 1 from rfl, distLoopFuel_succ, if_neg hg]
      rfl

/-- Totality of the distortion loop from any state: before iteration 1001
the counter strictly increases, afterwards `distLoop_total_high` applies. -/
theorem distLoop_total [LinearOrderedField α] [Archimedean α]
    (k1 k2 k3 p1 p2 fx fy : α) (Px Py : List α) :
    ∀ (M : ℕ) (s : DistState α), 1001 - s.it ≤ M →
      ∃ fuel, (distLoopFuel k1 k2 k3 p1 p2 fx fy Px Py fuel s).isSome = true := by
  intro M
  induction M with
  | zero =>
    intro s hM
    exact distLoop_total_high k1 k2 k3 p1 p2 fx fy Px Py
      (distN (s.res.headD 0)) s (le_refl _) (by omega)
  | succ M ih =>
    intro s hM
    by_cases hit : 1000 < s.it
    · exact distLoop_total_high k1 k2 k3 p1 p2 fx fy Px Py
        (distN (s.res.headD 0)) s (le_refl _) hit
    · by_cases hg : s.res.headD 0 > (1 / 25 : α)
      · cases hstep : distStep k1 k2 k3 p1 p2 fx fy Px Py s with
        | error e =>
          refine ⟨1, ?_⟩
          rw [show (1 : ℕ) = 0 + 1 from rfl, distLoopFuel_succ, if_pos hg, hstep]
          rfl
        | ok s2 =>
          obtain ⟨hit2, _, _⟩ :=
            distStep_ok_inv k1 k2 k3 p1 p2 fx fy Px Py s s2 hstep
          obtain ⟨fuel, hf⟩ := ih s2 (by omega)
          refine ⟨fuel + 1, ?_⟩
          rw [distLoopFuel_succ, if_pos hg, hstep]
          exact hf
      · refine ⟨1, ?_⟩
        rw [show (1 : ℕ) = 0 + 1 from rfl, distLoopFuel_succ, if_neg hg]
        rfl

/-- If the fixed-point loop finishes within `fuel` iterations (normally or
with an exception), the whole `set_lens_distortion` call finishes, since
everything after the loop is a total computation. -/
theorem set_lens_distortion_isSome_of_loop [LinearOrderedField α] [FloorRing α]
    (k1 k2 k3 p1 p2 : α) (fuel : ℕ) (s : Scene α)
    (hf : (distLoopFuel k1 k2 k3 p1 p2
        (get_intrinsics_as_K_matrix s 0 0) (get_intrinsics_as_K_matrix s 1 1)
        (P_und_x (get_intrinsics_as_K_matrix s 0 0)
          (get_intrinsics_as_K_matrix s 0 2)
          (pixel_columns s.render.resolution_y s.render.resolution_x))
        (P_und_y (get_intrinsics_as_K_matrix s 1 1)
          (get_intrinsics_as_K_matrix s 1 2)
          (pixel_rows s.render.resolution_y s.render.resolution_x))
        fuel
        (initDistState
          (P_und_x (get_intrinsics_as_K_matrix s 0 0)
            (get_intrinsics_as_K_matrix s 0 2)
            (pixel_columns s.render.resolution_y s.render.resolution_x))
          (P_und_y (get_intrinsics_as_K_matrix s 1 1)
            (get_intrinsics_as_K_matrix s 1 2)
            (pixel_rows s.render.resolution_y s.render.resolution_x)))).isSome
      = true) :
    (set_lens_distortion k1 k2 k3 p1 p2 fuel s).isSome = true := by
  unfold set_lens_distortion set_lens_distortion_aux
  dsimp only []
  rcases hloop : distLoopFuel k1 k2 k3 p1 p2
      (get_intrinsics_as_K_matrix s 0 0) (get_intrinsics_as_K_matrix s 1 1)
      (P_und_x (get_intrinsics_as_K_matrix s 0 0)
        (get_intrinsics_as_K_matrix s 0 2)
        (pixel_columns s.render.resolution_y s.render.resolution_x))
      (P_und_y (get_intrinsics_as_K_matrix s 1 1)
        (get_intrinsics_as_K_matrix s 1 2)
        (pixel_rows s.render.resolution_y s.render.resolution_x))
      fuel
      (initDistState
        (P_und_x (get_intrinsics_as_K_matrix s 0 0)
          (get_intrinsics_as_K_matrix s 0 2)
          (pixel_columns s.render.resolution_y s.render.resolution_x))
        (P_und_y (get_intrinsics_as_K_matrix s 1 1)
          (get_intrinsics_as_K_matrix s 1 2)
          (pixel_rows s.render.resolution_y s.render.resolution_x)))
    with _ | r
  · rw [hloop] at hf
    simp at hf
  · rcases r with e | sf
    · rfl
    · dsimp only []
      split <;> rfl

/-- Claim C5: for every distortion coefficients, camera state and positive
image resolution, the fixed-point iteration in `set_lens_distortion`
terminates in finitely many steps: some finite fuel suffices for the call
to either return normally or raise one of its exceptions. -/
theorem set_lens_distortion_terminates [LinearOrderedField α] [Archimedean α]
    [FloorRing α] (k1 k2 k3 p1 p2 : α) (s : Scene α)
    (hx : 0 < s.render.resolution_x) (hy : 0 < s.render.resolution_y) :
    ∃ fuel, (set_lens_distortion k1 k2 k3 p1 p2 fuel s).isSome = true := by
  obtain ⟨fuel, hf⟩ := distLoop_total k1 k2 k3 p1 p2
    (get_intrinsics_as_K_matrix s 0 0) (get_intrinsics_as_K_matrix s 1 1)
    (P_und_x (get_intrinsics_as_K_matrix s 0 0)
      (get_intrinsics_as_K_matrix s 0 2)
      (pixel_columns s.render.resolution_y s.render.resolution_x))
    (P_und_y (get_intrinsics_as_K_matrix s 1 1)
      (get_intrinsics_as_K_matrix s 1 2)
      (pixel_rows s.render.resolution_y s.render.resolution_x))
    1001
    (initDistState
      (P_und_x (get_intrinsics_as_K_matrix s 0 0)
        (get_intrinsics_as_K_matrix s 0 2)
        (pixel_columns s.render.resolution_y s.render.resolution_x))
      (P_und_y (get_intrinsics_as_K_matrix s 1 1)
        (get_intrinsics_as_K_matrix s 1 2)
        (pixel_rows s.render.resolution_y s.render.resolution_x)))
    (by omega)
  exact ⟨fuel, set_lens_distortion_isSome_of_loop k1 k2 k3 p1 p2 fuel s hf⟩

/-- Claim C6: on every successful return, `set_lens_distortion` stores
under the key `"_lens_distortion_is_used"` a record holding the computed
backward pixel mapping coordinates and the original image resolution
`(resolution_y, resolution_x)` captured before the intrinsics and the
resolution were updated, and the record can be read back from the store. -/
theorem set_lens_distortion_stores_record [LinearOrderedField α] [FloorRing α]
    (k1 k2 k3 p1 p2 : α) (fuel : ℕ) (s s1 : Scene α)
    (r : LensDistortionRecord α)
    (hok : set_lens_distortion_aux k1 k2 k3 p1 p2 fuel s =
      some (Except.ok (s1, r))) :
    set_lens_distortion k1 k2 k3 p1 p2 fuel s =
        some (Except.ok (GlobalStorage.set "_lens_distortion_is_used" r s1)) ∧
      GlobalStorage.get (GlobalStorage.set "_lens_distortion_is_used" r s1)
        "_lens_distortion_is_used" = some r ∧
      r.original_image_res = (s.render.resolution_y, s.render.resolution_x) := by
  refine ⟨?_, ?_, ?_⟩
  · unfold set_lens_distortion
    rw [hok]
    rfl
  · unfold GlobalStorage.get GlobalStorage.set
    simp [List.lookup]
  · unfold set_lens_distortion_aux at hok
    dsimp only [] at hok
    split at hok
    · simp at hok
    · simp at hok
    · split at hok
      · simp at hok
      · injection hok with h1
        injection h1 with h2
        injection h2 with ha hb
        rw [← hb]

/-- Claim C7: whenever the current K matrix has `fx > 0` and `fy > 0`,
`get_fov` returns `(2*arctan(resolution_x/(2*fx)),
2*arctan(resolution_y/(2*fy)))`. -/
theorem get_fov_formula [LinearOrderedField α] (arctan : α → α) (s : Scene α)
    (hfx : 0 < get_intrinsics_as_K_matrix s 0 0)
    (hfy : 0 < get_intrinsics_as_K_matrix s 1 1) :
    get_fov arctan s =
      (2 * arctan ((s.render.resolution_x : α) /
          (2 * get_intrinsics_as_K_matrix s 0 0)),
        2 * arctan ((s.render.resolution_y : α) /
          (2 * get_intrinsics_as_K_matrix s 1 1))) := by
  unfold get_fov
  dsimp only []
  rw [div_div, div_div]

/-- A 10x10 test camera over ℚ for evaluating the intrinsics theorems. -/
def kScene : Scene ℚ :=
  { camera := {
      lens := 3, lens_unit := "MILLIMETERS", angle := 0,
      sensor_fit := "AUTO", sensor_width := 36, sensor_height := 24,
      shift_x := 0, shift_y := 0, clip_start := 1/10, clip_end := 1000 },
    render := {
      resolution_x := 10, resolution_y := 10,
      pixel_aspect_x := 1, pixel_aspect_y := 1 },
    frame_end := 0, camera_matrix_world := 1, keyframes := [], storage := [] }

/-- The scene `set_intrinsics_from_K_matrix (mkK 2 1 5 5) 10 10 (1/10) 1000`
produces from `kScene`. -/
def kResult : Scene ℚ :=
  { camera := {
      lens := 18/5, lens_unit := "MILLIMETERS", angle := 0,
      sensor_fit := "AUTO", sensor_width := 36, sensor_height := 24,
      shift_x := -1/40, shift_y := 1/20, clip_start := 1/10, clip_end := 1000 },
    render := {
      resolution_x := 10, resolution_y := 10,
      pixel_aspect_x := 1, pixel_aspect_y := 2 },
    frame_end := 0, camera_matrix_world := 1, keyframes := [], storage := [] }

/-- Concrete evaluation: the call discharging the hypotheses of the
round-trip and pixel-aspect witnesses. -/
theorem set_K_kScene_eq :
    set_intrinsics_from_K_matrix (mkK (2 : ℚ) 1 5 5) 10 10 (1/10) 1000
    kScene = Except.ok kResult := by
  norm_num [set_intrinsics_from_K_matrix, set_intrinsics_from_blender_params,
    get_view_fac_in_px, get_sensor_size, kScene, kResult,
    mkK_00, mkK_11, mkK_02, mkK_12]
  simp only [String.reduceEq, if_false, if_true]
  norm_num [Scene.mk.injEq, BlenderCamera.mk.injEq, RenderSettings.mk.injEq]

/-- Scene for the claim C3 counterexample: a 1x1 image whose K matrix is
`[[1,0,-1e9],[0,1,0],[0,0,1]]`, so the single pixel's undistorted
projection sits at `x = 1e9`. -/
def divScene : Scene ℚ :=
  { camera := {
      lens := 3, lens_unit := "MILLIMETERS", angle := 0,
      sensor_fit := "AUTO", sensor_width := 3, sensor_height := 24,
      shift_x := 10^9, shift_y := 0, clip_start := 1/10, clip_end := 1000 },
    render := {
      resolution_x := 1, resolution_y := 1,
      pixel_aspect_x := 1, pixel_aspect_y := 1 },
    frame_end := 0, camera_matrix_world := 1, keyframes := [], storage := [] }

theorem getK_divScene :
    get_intrinsics_as_K_matrix divScene = mkK (1 : ℚ) 1 (-(10 ^ 9)) 0 := by
  norm_num [get_intrinsics_as_K_matrix, get_view_fac_in_px, get_sensor_size,
    divScene, mkK]
  simp

theorem pixel_rows_1_1 : pixel_rows 1 1 = [0] := rfl

theorem pixel_columns_1_1 : pixel_columns 1 1 = [0] := rfl

theorem Px_div : P_und_x (1 : ℚ) (-(10 ^ 9)) [0] = [10 ^ 9] := by
  norm_num [P_und_x]

theorem Py_div : P_und_y (1 : ℚ) 0 [0] = [0] := by
  norm_num [P_und_y]

theorem divStep1 :
    distStep (0 : ℚ) 0 0 (1 / 1500000000) 0 1 1 [10 ^ 9] [0]
        (initDistState [10 ^ 9] [0]) =
      Except.ok ⟨[-(10 ^ 9)], [0], [4 * 10 ^ 18, 10 ^ 6], 1, 1⟩ := by
  unfold distStep initDistState
  dsimp only []
  simp only [Bool.and_eq_true, decide_eq_true_eq, List.zipWith_cons_cons,
    List.zipWith_nil_right, List.zipWith_nil_left, List.headD_cons]
  norm_num [errSq, distorted_x, distorted_y, List.zipWith, List.foldr]

theorem divStep2 :
    distStep (0 : ℚ) 0 0 (1 / 1500000000) 0 1 1 [10 ^ 9] [0]
        ⟨[-(10 ^ 9)], [0], [4 * 10 ^ 18, 10 ^ 6], 1, 1⟩ =
      Except.ok ⟨[-(10 ^ 9)], [0], [0, 4 * 10 ^ 18, 10 ^ 6], 2, 1⟩ := by
  unfold distStep
  dsimp only []
  simp only [Bool.and_eq_true, decide_eq_true_eq, List.zipWith_cons_cons,
    List.zipWith_nil_right, List.zipWith_nil_left, List.headD_cons]
  norm_num [errSq, distorted_x, distorted_y, List.zipWith, List.foldr]

theorem loopRun_div :
    distLoopFuel (0 : ℚ) 0 0 (1 / 1500000000) 0 1 1 [10 ^ 9] [0] 5
        (initDistState [10 ^ 9] [0]) =
      some (Except.ok ⟨[-(10 ^ 9)], [0], [0, 4 * 10 ^ 18, 10 ^ 6], 2, 1⟩) := by
  rw [show (5 : ℕ) = 4 + 1 from rfl, distLoopFuel_succ,
    if_pos (by norm_num [initDistState] : (initDistState [(10:ℚ) ^ 9] [0]).res.headD 0 > (1 / 25 : ℚ)),
    divStep1]
  dsimp only []
  rw [show (4 : ℕ) = 3 + 1 from rfl, distLoopFuel_succ,
    if_pos (by norm_num : ((⟨[-(10 ^ 9)], [0], [4 * 10 ^ 18, 10 ^ 6], 1, 1⟩ : DistState ℚ).res.headD 0 > (1 / 25 : ℚ))),
    divStep2]
  dsimp only []
  rw [show (3 : ℕ) = 2 + 1 from rfl, distLoopFuel_succ,
    if_neg (by norm_num : ¬((⟨[-(10 ^ 9)], [0], [0, 4 * 10 ^ 18, 10 ^ 6], 2, 1⟩ : DistState ℚ).res.headD 0 > (1 / 25 : ℚ)))]

theorem div_call_ok :
    optionIsOk (set_lens_distortion (0 : ℚ) 0 0 (1 / 1500000000) 0 5 divScene) =
      true := by
  unfold set_lens_distortion set_lens_distortion_aux
  dsimp only []
  rw [getK_divScene]
  simp only [mkK_00, mkK_11, mkK_02, mkK_12, divScene, pixel_rows_1_1,
    pixel_columns_1_1, Px_div, Py_div, loopRun_div]
  norm_num [np_min, np_max, np_sign_ceil, set_intrinsics_from_K_matrix,
    set_intrinsics_from_blender_params, get_view_fac_in_px, get_sensor_size,
    mkK_00, mkK_11, mkK_02, mkK_12, List.map, List.foldr, List.headD,
    optionIsOk]
  simp [Except.map, optionIsOk]

/-- Counterexample to claim C3 as stated: on `divScene` with
`p1 = 2/(3e9)` (and all other coefficients zero) the residual measured in
the first loop iteration is `2e9`, far above `1e9` (squared model:
`4*10^18 > 10^18`, i.e. `sqrt` of the measured square exceeds `1e9`), yet
`set_lens_distortion` completes without raising: the stall test requires
`it > 1`, so no exception can fire in the first iteration, and the
residual improves to zero afterwards. -/
theorem residual_above_1e9_returns :
    step_err (0 : ℚ) 0 0 (1 / 1500000000) 0 1 1 [10 ^ 9] [0]
        (initDistState [10 ^ 9] [0]) = 4 * 10 ^ 18 ∧
      (10 ^ 18 : ℚ) < 4 * 10 ^ 18 ∧
      (10 ^ 9 : ℝ) < Real.sqrt ((4 * 10 ^ 18 : ℚ) : ℝ) ∧
      optionIsOk (set_lens_distortion (0 : ℚ) 0 0 (1 / 1500000000) 0 5
        divScene) = true := by
  refine ⟨?_, by norm_num, ?_, div_call_ok⟩
  · norm_num [step_err, errSq, distorted_x, distorted_y, initDistState,
      List.zipWith, List.foldr]
  · rw [show ((4 * 10 ^ 18 : ℚ) : ℝ) = 4 * 10 ^ 18 by norm_num]
    rw [show (10 ^ 9 : ℝ) = Real.sqrt ((10 ^ 9) ^ 2) from
      (Real.sqrt_sq (by norm_num)).symm]
    apply Real.sqrt_lt_sqrt (by positivity)
    norm_num

/-- Scene for the claim C4 counterexample: a 1x1 image whose K matrix is
`[[1,0,-1/10],[0,1,-1/10],[0,0,1]]`, so the single pixel projects to
`(1/10, 1/10)`. -/
def bndScene : Scene ℚ :=
  { camera := {
      lens := 3, lens_unit := "MILLIMETERS", angle := 0,
      sensor_fit := "AUTO", sensor_width := 3, sensor_height := 24,
      shift_x := 1/10, shift_y := -1/10, clip_start := 1/10, clip_end := 1000 },
    render := {
      resolution_x := 1, resolution_y := 1,
      pixel_aspect_x := 1, pixel_aspect_y := 1 },
    frame_end := 0, camera_matrix_world := 1, keyframes := [], storage := [] }

theorem getK_bndScene :
    get_intrinsics_as_K_matrix bndScene = mkK (1 : ℚ) 1 (-(1/10)) (-(1/10)) := by
  norm_num [get_intrinsics_as_K_matrix, get_view_fac_in_px, get_sensor_size,
    bndScene, mkK]
  simp

theorem Px_bnd : P_und_x (1 : ℚ) (-(1/10)) [0] = [1/10] := by
  norm_num [P_und_x]

theorem Py_bnd : P_und_y (1 : ℚ) (-(1/10)) [0] = [1/10] := by
  norm_num [P_und_y]

theorem bndStep1 :
    distStep (70 : ℚ) 0 0 0 0 1 1 [1/10] [1/10]
        (initDistState [1/10] [1/10]) =
      Except.ok ⟨[-1/25], [-1/25], [49/1250, 10 ^ 6], 1, 1⟩ := by
  unfold distStep initDistState
  dsimp only []
  simp only [Bool.and_eq_true, decide_eq_true_eq, List.zipWith_cons_cons,
    List.zipWith_nil_right, List.zipWith_nil_left, List.headD_cons]
  norm_num [errSq, distorted_x, distorted_y, List.zipWith, List.foldr]

theorem loopRun_bnd :
    distLoopFuel (70 : ℚ) 0 0 0 0 1 1 [1/10] [1/10] 5
        (initDistState [1/10] [1/10]) =
      some (Except.ok ⟨[-1/25], [-1/25], [49/1250, 10 ^ 6], 1, 1⟩) := by
  rw [show (5 : ℕ) = 4 + 1 from rfl, distLoopFuel_succ,
    if_pos (by norm_num [initDistState] :
      (initDistState [(1:ℚ)/10] [1/10]).res.headD 0 > (1 / 25 : ℚ)),
    bndStep1]
  dsimp only []
  rw [show (4 : ℕ) = 3 + 1 from rfl, distLoopFuel_succ,
    if_neg (by norm_num :
      ¬((⟨[-1/25], [-1/25], [49/1250, 10 ^ 6], 1, 1⟩ :
        DistState ℚ).res.headD 0 > (1 / 25 : ℚ)))]

theorem ceil_7_50 : (⌈(7/50 : ℚ)⌉ : ℤ) = 1 := by
  rw [Int.ceil_eq_iff]
  norm_num

theorem bnd_call_ok :
    optionIsOk (set_lens_distortion (70 : ℚ) 0 0 0 0 5 bndScene) = true := by
  unfold set_lens_distortion set_lens_distortion_aux
  dsimp only []
  rw [getK_bndScene]
  simp only [mkK_00, mkK_11, mkK_02, mkK_12, bndScene, pixel_rows_1_1,
    pixel_columns_1_1, Px_bnd, Py_bnd, loopRun_bnd]
  norm_num [np_min, np_max, np_sign_ceil, set_intrinsics_from_K_matrix,
    set_intrinsics_from_blender_params, get_view_fac_in_px, get_sensor_size,
    mkK_00, mkK_11, mkK_02, mkK_12, List.map, List.foldr, List.headD,
    ceil_7_50, optionIsOk]
  simp [Except.map, optionIsOk]

/-- Counterexample to claim C4 as stated: on `bndScene` with `k1 = 70` the
loop measures a first-iteration squared residual `49/1250 ≤ 1/25` and
exits — but only after updating `x`, `y` once more.  The final iterate
`x = y = -1/25`, from which the stored backward mapping `u`, `v` is built,
has squared residual `866761/19531250 > 1/25`, i.e. its residual
`sqrt(866761/19531250) > 0.2` pixels: the computed mapping violates the
0.2-pixel bound on a normally returning call. -/
theorem final_mapping_residual_above_threshold :
    get_intrinsics_as_K_matrix bndScene = mkK (1 : ℚ) 1 (-(1/10)) (-(1/10)) ∧
      distLoopFuel (70 : ℚ) 0 0 0 0 1 1 [1/10] [1/10] 5
        (initDistState [1/10] [1/10]) =
        some (Except.ok ⟨[-1/25], [-1/25], [49/1250, 10 ^ 6], 1, 1⟩) ∧
      step_err (70 : ℚ) 0 0 0 0 1 1 [1/10] [1/10]
        ⟨[-1/25], [-1/25], [49/1250, 10 ^ 6], 1, 1⟩ = 866761/19531250 ∧
      (1/25 : ℚ) < 866761/19531250 ∧
      (1/5 : ℝ) < Real.sqrt ((866761/19531250 : ℚ) : ℝ) ∧
      optionIsOk (set_lens_distortion (70 : ℚ) 0 0 0 0 5 bndScene) = true := by
  refine ⟨getK_bndScene, loopRun_bnd, ?_, by norm_num, ?_, bnd_call_ok⟩
  · norm_num [step_err, errSq, distorted_x, distorted_y, List.zipWith,
      List.foldr]
  · rw [show ((866761/19531250 : ℚ) : ℝ) = 866761/19531250 by norm_num]
    rw [show (1/5 : ℝ) = Real.sqrt ((1/5) ^ 2) from
      (Real.sqrt_sq (by norm_num)).symm]
    apply Real.sqrt_lt_sqrt (by positivity)
    norm_num

/-- Scene for the claim C9 counterexample. -/
def aspectCexScene : Scene ℚ :=
  { camera := {
      lens := 1, lens_unit := "MILLIMETERS", angle := 0,
      sensor_fit := "AUTO", sensor_width := 50, sensor_height := 24,
      shift_x := 0, shift_y := 0, clip_start := 1/10, clip_end := 1000 },
    render := {
      resolution_x := 1, resolution_y := 1,
      pixel_aspect_x := 1, pixel_aspect_y := 1 },
    frame_end := 0, camera_matrix_world := 1, keyframes := [], storage := [] }

/-- Counterexample to claim C9 as stated: with the K matrix
`[[1,0,0],[0,-1,0],[0,0,1]]` (so `fy = -1 < 0`) the call completes — the
derived focal length is 50mm — but it sets `pixel_aspect_y = fx / fy = -1`,
which is smaller than 1. -/
theorem pixel_aspect_below_one_cex :
    Except.map (fun s : Scene ℚ => s.render.pixel_aspect_y)
        (set_intrinsics_from_K_matrix (mkK (1 : ℚ) (-1) 0 0) 1 1 (1/10) 1000
          aspectCexScene) = Except.ok (-1) ∧
      ¬((1 : ℚ) ≤ -1) := by
  constructor
  · norm_num [set_intrinsics_from_K_matrix, set_intrinsics_from_blender_params,
      get_view_fac_in_px, get_sensor_size, aspectCexScene,
      mkK_00, mkK_11, mkK_02, mkK_12, Except.map]
    simp
  · norm_num

theorem getK_kScene :
    get_intrinsics_as_K_matrix kScene = mkK (5/6 : ℚ) (5/6) (9/2) (9/2) := by
  norm_num [get_intrinsics_as_K_matrix, get_view_fac_in_px, get_sensor_size,
    kScene, mkK]
  simp [Fin.cons_eq_cons]
  norm_num

/-- Witness for `K_matrix_roundtrip`: the hypotheses hold at
`K = mkK 2 1 5 5` on `kScene` and the round-trip returns the K matrix. -/
theorem K_matrix_roundtrip_witness :
    (0 : ℚ) < 2 ∧ (0 : ℤ) < 10 ∧
      get_intrinsics_as_K_matrix kResult = mkK (2 : ℚ) 1 5 5 :=
  ⟨by norm_num, by norm_num,
    K_matrix_roundtrip 2 1 5 5 10 10 (1/10) 1000 kScene kResult (by norm_num)
      (by norm_num) (by norm_num) (by norm_num) set_K_kScene_eq⟩

/-- Witness for `pixel_aspect_invariant` at the same concrete call. -/
theorem pixel_aspect_invariant_witness :
    1 ≤ kResult.render.pixel_aspect_x ∧ 1 ≤ kResult.render.pixel_aspect_y ∧
      ¬(1 < kResult.render.pixel_aspect_x ∧
        1 < kResult.render.pixel_aspect_y) := by
  obtain ⟨h1, h2, h3, -⟩ := pixel_aspect_invariant 2 1 5 5 10 10 (1/10) 1000
    kScene kResult (by norm_num) (by norm_num) set_K_kScene_eq
  exact ⟨h1, h2, h3⟩

/-- Witness for `get_fov_formula` at `kScene` (current `fx = fy = 5/6`). -/
theorem get_fov_formula_witness :
    get_fov (fun x : ℚ => x) kScene =
      (2 * ((kScene.render.resolution_x : ℚ) /
          (2 * get_intrinsics_as_K_matrix kScene 0 0)),
        2 * ((kScene.render.resolution_y : ℚ) /
          (2 * get_intrinsics_as_K_matrix kScene 1 1))) :=
  get_fov_formula (fun x : ℚ => x) kScene
    (by rw [getK_kScene, mkK_00]; norm_num)
    (by rw [getK_kScene, mkK_11]; norm_num)

theorem zeroStep :
    distStep (0 : ℚ) 0 0 0 0 1 1 [0] [0] (initDistState [0] [0]) =
      Except.ok ⟨[0], [0], [0, 10 ^ 6], 1, 1⟩ := by
  unfold distStep initDistState
  dsimp only []
  simp only [Bool.and_eq_true, decide_eq_true_eq, List.zipWith_cons_cons,
    List.zipWith_nil_right, List.zipWith_nil_left, List.headD_cons]
  norm_num [errSq, distorted_x, distorted_y, List.zipWith, List.foldr]

theorem loopRun_zero :
    distLoopFuel (0 : ℚ) 0 0 0 0 1 1 [0] [0] 2 (initDistState [0] [0]) =
      some (Except.ok ⟨[0], [0], [0, 10 ^ 6], 1, 1⟩) := by
  rw [show (2 : ℕ) = 1 + 1 from rfl, distLoopFuel_succ,
    if_pos (by norm_num [initDistState] :
      (initDistState [(0:ℚ)] [0]).res.headD 0 > (1 / 25 : ℚ)),
    zeroStep]
  dsimp only []
  rw [show (1 : ℕ) = 0 + 1 from rfl, distLoopFuel_succ,
    if_neg (by norm_num :
      ¬((⟨[0], [0], [0, 10 ^ 6], 1, 1⟩ :
        DistState ℚ).res.headD 0 > (1 / 25 : ℚ)))]

/-- Witness for `distLoop_exit_residual_le`: the all-zero distortion run
exits with measured squared residual `0 ≤ 1/25`. -/
theorem distLoop_exit_residual_le_witness :
    (⟨[0], [0], [0, 10 ^ 6], 1, 1⟩ : DistState ℚ).res.headD 0 ≤ (1/25 : ℚ) :=
  distLoop_exit_residual_le 0 0 0 0 0 1 1 [0] [0] 2 (initDistState [0] [0])
    ⟨[0], [0], [0, 10 ^ 6], 1, 1⟩ loopRun_zero

/-- Witness for `set_lens_distortion_terminates` at `kScene`. -/
theorem set_lens_distortion_terminates_witness :
    (0 : ℤ) < 10 ∧
      ∃ fuel, (set_lens_distortion (0 : ℚ) 0 0 0 0 fuel kScene).isSome = true :=
  ⟨by norm_num,
    set_lens_distortion_terminates 0 0 0 0 0 kScene (by norm_num [kScene])
      (by norm_num [kScene])⟩

/-- Scene for the claim C6 witness: 1x1 image with principal point at the
origin and no distortion. -/
def zeroScene : Scene ℚ :=
  { camera := {
      lens := 3, lens_unit := "MILLIMETERS", angle := 0,
      sensor_fit := "AUTO", sensor_width := 3, sensor_height := 24,
      shift_x := 0, shift_y := 0, clip_start := 1/10, clip_end := 1000 },
    render := {
      resolution_x := 1, resolution_y := 1,
      pixel_aspect_x := 1, pixel_aspect_y := 1 },
    frame_end := 0, camera_matrix_world := 1, keyframes := [], storage := [] }

/-- The scene `set_lens_distortion_aux (0,0,0,0,0)` produces from
`zeroScene` before the storage write. -/
def zeroResult : Scene ℚ :=
  { camera := {
      lens := 1, lens_unit := "MILLIMETERS", angle := 0,
      sensor_fit := "AUTO", sensor_width := 3, sensor_height := 24,
      shift_x := -1/3, shift_y := 1/3, clip_start := 1/10, clip_end := 1000 },
    render := {
      resolution_x := 3, resolution_y := 3,
      pixel_aspect_x := 1, pixel_aspect_y := 1 },
    frame_end := 0, camera_matrix_world := 1, keyframes := [], storage := [] }

/-- The record `set_lens_distortion` stores for `zeroScene`. -/
def zeroRecord : LensDistortionRecord ℚ :=
  { mapping_coords := ([2], [2]), original_image_res := (1, 1) }

theorem getK_zeroScene :
    get_intrinsics_as_K_matrix zeroScene = mkK (1 : ℚ) 1 0 0 := by
  norm_num [get_intrinsics_as_K_matrix, get_view_fac_in_px, get_sensor_size,
    zeroScene, mkK]
  simp

theorem Px_zero : P_und_x (1 : ℚ) 0 [0] = [0] := by
  norm_num [P_und_x]

theorem Py_zero : P_und_y (1 : ℚ) 0 [0] = [0] := by
  norm_num [P_und_y]

theorem aux_zeroScene :
    set_lens_distortion_aux (0 : ℚ) 0 0 0 0 2 zeroScene =
      some (Except.ok (zeroResult, zeroRecord)) := by
  unfold set_lens_distortion_aux
  dsimp only []
  rw [getK_zeroScene]
  simp only [mkK_00, mkK_11, mkK_02, mkK_12, zeroScene, pixel_rows_1_1,
    pixel_columns_1_1, Px_zero, Py_zero, loopRun_zero]
  norm_num [np_min, np_max, np_sign_ceil, set_intrinsics_from_K_matrix,
    set_intrinsics_from_blender_params, get_view_fac_in_px, get_sensor_size,
    mkK_00, mkK_11, mkK_02, mkK_12, List.map, List.foldr, List.headD,
    zeroResult, zeroRecord, Scene.mk.injEq, BlenderCamera.mk.injEq,
    RenderSettings.mk.injEq, LensDistortionRecord.mk.injEq, Prod.mk.injEq]
  simp

/-- Witness for `set_lens_distortion_stores_record`: the all-zero
distortion call on `zeroScene` stores the record `([2],[2])` with the
original `(1, 1)` resolution, and it can be read back. -/
theorem set_lens_distortion_stores_record_witness :
    GlobalStorage.get (GlobalStorage.set "_lens_distortion_is_used"
        zeroRecord zeroResult) "_lens_distortion_is_used" = some zeroRecord ∧
      zeroRecord.original_image_res = (1, 1) := by
  obtain ⟨-, h2, h3⟩ := set_lens_distortion_stores_record 0 0 0 0 0 2
    zeroScene zeroResult zeroRecord aux_zeroScene
  exact ⟨h2, h3⟩

/-- Witness for `add_camera_pose_spec` with no frame argument on
`kScene`. -/
theorem add_camera_pose_spec_witness :
    (add_camera_pose (1 : Matrix (Fin 4) (Fin 4) ℚ) none kScene).2 =
        kScene.frame_end ∧
      (add_camera_pose (1 : Matrix (Fin 4) (Fin 4) ℚ) none
          kScene).1.camera_matrix_world = 1 ∧
      ("location", (add_camera_pose (1 : Matrix (Fin 4) (Fin 4) ℚ) none
          kScene).2) ∈
        (add_camera_pose (1 : Matrix (Fin 4) (Fin 4) ℚ) none
          kScene).1.keyframes := by
  obtain ⟨-, h2, h3, h4, -⟩ :=
    add_camera_pose_spec (1 : Matrix (Fin 4) (Fin 4) ℚ) none kScene
  exact ⟨h2 rfl, h3, h4⟩

/-- A depth-of-field block for the `add_depth_of_field` witness. -/
def dofCamera : DofSettings ℚ Unit :=
  { use_dof := false, focus_object := none, focus_distance := 5,
    aperture_fstop := 0, aperture_blades := 0, aperture_rotation := 0,
    aperture_ratio := 1 }

/-- Witness for `add_depth_of_field_spec` with a focal point object. -/
theorem add_depth_of_field_spec_witness :
    exceptIsError (add_depth_of_field dofCamera (some ()) 2 3 (1/2) 1
        (-1)) = true ↔
      (some () = none ∧ (-1 : ℚ) < 0) :=
  (add_depth_of_field_spec dofCamera (some ()) 2 3 (1/2) 1 (-1)).1
